import Mathlib

/-!
Shallow embedding of the least-cost transmission routing and costing code of
the reVX repository, together with theorems settling the claims of the
specification against it.

The embedded functions are translated from:
  - reVX/least_cost_xmission/trans_cap_costs.py   (TieLineCosts, TransCapCosts)
  - reVX/least_cost_xmission/least_cost_paths.py  (LeastCostPaths)
  - reVX/utilities/exceptions.py                  (exception classes)
  - reVX/x_mission_paths/path_finder.py           (PathFinder)
  - reVX/offshore/dist_to_ports.py                (DistanceToPorts)

Machine floats are modelled by exact rationals (for the table arithmetic) and
by real numbers (for the Euclidean path geometry).  Python exceptions are
modelled by Except values.  The external shortest-path primitive
(skimage.graph.MCP_Geometric) is, as in the source, an opaque third-party
routine: its traceback / cumulative-cost output appears as an explicit
parameter of the functions that consume it.
-/

namespace ReVX

/-- Transmission feature categories.  The category constants
(TRANS_LINE_CAT, SINK_CAT, SUBSTATION_CAT, LOAD_CENTER_CAT) are imported by
trans_cap_costs.py from the reVX.least_cost_xmission.config module, which is
not among the source files; they are modelled as an enumeration of the role
tags the spec lists for candidate destinations. -/
inductive Category where
  | transLine
  | substation
  | loadCenter
  | sink
  | other
deriving DecidableEq, Repr, Inhabited

/-- One row of the transmission-feature table, with the electrical attributes
read by TransCapCosts (category, min_volts, max_volts, region). -/
structure Feature where
  category : Category
  minVolts : ℚ
  maxVolts : ℚ
  region : ℤ
deriving DecidableEq, Repr, Inhabited

/-- A 2d raster window, row-major, as read from the exclusion .h5 layers. -/
abbrev Grid := List (List ℚ)

/-- Shape (rows, cols) of a raster window, as numpy ndarray.shape. -/
def gridShape (g : Grid) : ℕ × ℕ :=
  (g.length, (g.headD []).length)

/-- Element access with numpy-style 0 default outside the stored data. -/
def getCell (g : Grid) (i j : ℕ) : ℚ :=
  (g.getD i []).getD j 0

/-- TieLineCosts._get_clipping_slices (trans_cap_costs.py lines 236-244):
row_min = max(row - radius, 0), row_max = min(row + radius, shape[0]) and the
analogous column bounds.  The source returns the two half-open slices and has
no error path. -/
def getClippingSlices (shape : ℤ × ℤ) (row col radius : ℤ) :
    (ℤ × ℤ) × (ℤ × ℤ) :=
  ((max (row - radius) 0, min (row + radius) shape.1),
   (max (col - radius) 0, min (col + radius) shape.2))

/-- Row/column window extraction, g[r0:r1, c0:c1]. -/
def slice2d (g : Grid) (r0 r1 c0 c1 : ℕ) : Grid :=
  ((g.drop r0).take (r1 - r0)).map (fun row => (row.drop c0).take (c1 - c0))

/-- Elementwise product of two rasters (numpy cost * barrier). -/
def mul2d (a b : Grid) : Grid :=
  List.zipWith (List.zipWith (· * ·)) a b

/-- Scalar multiple of a raster (numpy arr * barrier_mult). -/
def smul2d (m : ℚ) (a : Grid) : Grid :=
  a.map (List.map (· * m))

/-- TieLineCosts._clip_costs (trans_cap_costs.py lines 246-278): clip the raw
cost layer and the transmission_barrier layer to the window and return
(cost, mcp_cost) with mcp_cost = cost * barrier * barrier_mult. -/
def clipCosts (cost barrier : Grid) (r0 r1 c0 c1 : ℕ) (barrierMult : ℚ) :
    Grid × Grid :=
  let c := slice2d cost r0 r1 c0 c1
  let b := slice2d barrier r0 r1 c0 c1
  (c, smul2d barrierMult (mul2d c b))

/-- LeastCostPaths.REQUIRED_LAYRES (least_cost_paths.py line 29): the only
layer names the batch-construction check looks for. -/
def REQUIRED_LAYRES : List String := ["transmission_barrier"]

/-- LeastCostPaths._check_layers (least_cost_paths.py lines 73-94): collect
the required layers missing from the data source; raise a RuntimeError whose
message names them, otherwise return normally. -/
def checkLayers (available : List String) : Except (List String) Unit :=
  let missing := REQUIRED_LAYRES.filter (fun lyr => !available.contains lyr)
  if missing.isEmpty then Except.ok () else Except.error missing

/-- Cost-layer name built in TieLineCosts.__init__ (trans_cap_costs.py line
62): 'tie_line_costs_{}MW'.format(line_cap).  This layer is first read inside
the per-window _clip_costs call, not by _check_layers. -/
def tieLineCostLayerName (lineCapMW : ℕ) : String :=
  "tie_line_costs_" ++ toString lineCapMW ++ "MW"

/-- Names of the exception classes defined in reVX/utilities/exceptions.py
(the module's complete list of class statements). -/
def exceptionsModuleClasses : List String :=
  ["reVXError", "ExclusionsCheckError", "GeoTiffKeyError", "RPMValueError",
   "RPMTypeError", "RPMRuntimeError", "ReEDSValueError", "ReEDSKeyError",
   "ReEDSRuntimeError"]

/-- Names that trans_cap_costs.py line 21 imports from
reVX.utilities.exceptions. -/
def transCapCostsImportedNames : List String := ["TransFeatureNotFoundError"]

/-- Module import of reVX.least_cost_xmission.trans_cap_costs: a Python
from-import succeeds only if every imported name is defined in the source
module, otherwise it raises ImportError before any code of the importing
module can run. -/
def importTransCapCosts : Except String Unit :=
  if transCapCostsImportedNames.all (fun n => exceptionsModuleClasses.contains n)
  then Except.ok ()
  else Except.error "ImportError"

/-- One iteration of the TransCapCosts.compute_tie_line_costs loop
(trans_cap_costs.py lines 517-533) for one feature, given the deterministic
least_cost_path result (length km, cost) for that feature.  Mirrors the
source statement for statement: raw_line_cost is written from the first
least_cost_path call (1e12 for an under-voltage transmission line), then a
second call recomputes (length, cost); under the minimum-length clamp the
scaled cost is assigned to the local variable but never stored — only the
clamped length reaches the dist_km column. -/
def computeTieLineCostsRow (tieVoltage minLineLength : ℚ)
    (lcp : Feature → ℚ × ℚ) (feat : Feature) : ℚ × ℚ :=
  let firstPath := lcp feat
  let rawLineCost :=
    if feat.category = Category.transLine ∧ feat.maxVolts < tieVoltage
    then (10 : ℚ) ^ 12
    else firstPath.2
  let secondPath := lcp feat
  let length := secondPath.1
  let cost := secondPath.2
  let _clampedCost :=
    if length < minLineLength then cost * (minLineLength / length) else cost
  let distKm := if length < minLineLength then minLineLength else length
  (rawLineCost, distKm)

/-- TransCapCosts.compute_tie_line_costs (trans_cap_costs.py lines 494-535):
the (raw_line_cost, dist_km) columns produced for the whole feature table. -/
def computeTieLineCosts (tieVoltage minLineLength : ℚ)
    (lcp : Feature → ℚ × ℚ) (feats : List Feature) : List (ℚ × ℚ) :=
  feats.map (computeTieLineCostsRow tieVoltage minLineLength lcp)

/-- Distance-tier multiplier of TransCapCosts.compute_connection_costs
(trans_cap_costs.py lines 644-651), applied to one dist_km value in the order
of the source: default 1.0, then the short-cutoff mask assigns 1.5, then the
medium-cutoff mask assigns 1.2. -/
def lengthMult (distKm : ℚ) : ℚ :=
  let mult := (1.0 : ℚ)
  let mult := if distKm < 3 * 5280 / 3.28084 / 1000 then (1.5 : ℚ) else mult
  let mult := if distKm ≤ 10 * 5280 / 3.28084 / 1000 then (1.2 : ℚ) else mult
  mult

/-- tie_line_cost = raw_line_cost * length_mult (trans_cap_costs.py lines
653-654). -/
def tieLineCost (rawLineCost distKm : ℚ) : ℚ :=
  rawLineCost * lengthMult distKm

/-- Per-feature branch structure of TransCapCosts._calc_xformer_cost
(trans_cap_costs.py lines 559-575): the groupby writes the $/MW table value
for every feature, after which the three zero masks (under-voltage
transmission line, min_volts at most the tie voltage, TEPPC region) are
applied.  The $/MW table (XmissionConfig.xformer_cost) and the TEPPC region
code (iso_lookup) live in the reVX.least_cost_xmission.config module, which
is not among the source files; modelled from the spec as an abstract lookup
keyed by (feature voltage class, tie-line voltage) and an abstract region
code. -/
def xformerCostRow (tieVoltage : ℚ) (xformerTable : ℚ → ℚ → ℚ)
    (teppcRegion : ℤ) (f : Feature) : ℚ :=
  if f.category = Category.transLine ∧ f.maxVolts < tieVoltage then 0
  else if f.minVolts ≤ tieVoltage then 0
  else if f.region = teppcRegion then 0
  else xformerTable f.minVolts tieVoltage

/-- TransCapCosts._calc_xformer_cost (trans_cap_costs.py lines 537-575): a
RuntimeError when any substation has max_volts below the tie voltage,
otherwise the vector of per-feature $/MW transformer costs. -/
def calcXformerCost (feats : List Feature) (tieVoltage : ℚ)
    (xformerTable : ℚ → ℚ → ℚ) (teppcRegion : ℤ) :
    Except String (List ℚ) :=
  if ∃ f ∈ feats, f.category = Category.substation ∧ f.maxVolts < tieVoltage
  then Except.error "RuntimeError"
  else Except.ok (feats.map (xformerCostRow tieVoltage xformerTable teppcRegion))

/-- xformer_cost = xformer_cost_per_mw * capacity (trans_cap_costs.py lines
657-659).  The capacity factor is parsed from the missing config module;
modelled from the spec: the requested capacity in MW. -/
def xformerCost (perMW capacityMW : ℚ) : ℚ :=
  perMW * capacityMW

/-- Flattened cell list of a raster (numpy ravel order). -/
def flatCells (g : Grid) : List ℚ :=
  g.flatten

/-- numpy ndarray.min over a raster: the least cell value, none on an empty
array (where numpy raises). -/
def arrMin (g : Grid) : Option ℚ :=
  match flatCells g with
  | [] => none
  | x :: xs => some (xs.foldl min x)

/-- PathFinder.__init__ (path_finder.py lines 109-118): assert
cost_arr.min() > 0, then assert cost_arr.shape == paths_arr.shape; the
constructor completes only if both assertions pass. -/
def pathFinderInit (costArr pathsArr : Grid) : Except String Unit :=
  match arrMin costArr with
  | none => Except.error "ValueError"
  | some m =>
    if m > 0 then
      if gridShape costArr = gridShape pathsArr then Except.ok ()
      else Except.error "AssertionError"
    else Except.error "AssertionError"

/-- DistanceToPorts._parse_cost_arr (dist_to_ports.py lines 279-312): the
cost raster derived from the distance-to-coast layer, 90 on offshore pixels
(input value > 0) and 9999 on onshore pixels. -/
def parseCostArr (distToCoast : Grid) : Grid :=
  distToCoast.map (List.map (fun d => if 0 < d then 90 else 9999))

/-- DistanceToPorts.mc_dist_to_port (dist_to_ports.py lines 314-364): the
cumulative least-cost field mcDist (the find_costs output of the external
MCP_Geometric solver started at the port pixel, in meters) is divided by
1000, port_dist is added, and onshore pixels (mask False, input value not
positive) are overwritten with the sentinel -1. -/
def mcDistToPort (distToCoast : Grid) (portDist : ℚ)
    (mcDist : ℕ → ℕ → ℚ) (i j : ℕ) : ℚ :=
  if 0 < getCell distToCoast i j then mcDist i j / 1000 + portDist else -1

/-- numpy repeat(lens, 2): every hop length duplicated in place. -/
def dup2 {α : Type} : List α → List α
  | [] => []
  | x :: xs => x :: x :: dup2 xs

/-- numpy reshape((n, 2)) followed by sum(axis=1): adjacent pairs added.  An
odd tail element (which the callers never produce) passes through. -/
def pairSums {α : Type} [Add α] : List α → List α
  | [] => []
  | [x] => [x]
  | x :: y :: xs => (x + y) :: pairSums xs

/-- Half-hop cost-attribution scheme shared by TieLineCosts.least_cost_path
(trans_cap_costs.py lines 322-336) and PathFinder.calc_path_cost
(path_finder.py lines 333-347): duplicate every hop length, pad a 0 for the
start and end cells, halve everything, then add each entering/leaving pair,
yielding one length credit per path cell. -/
def cellCredits {α : Type} [DivisionRing α] (lens : List α) : List α :=
  pairSums ((0 :: (dup2 lens ++ [0])).map (fun l => l / 2))

/-- Euclidean hop length between consecutive path cells in cell units:
np.sqrt(np.sum(np.diff(indices, axis=0)**2, axis=1)) for one row of diffs. -/
noncomputable def hopLength (p q : ℤ × ℤ) : ℝ :=
  Real.sqrt ((((q.1 - p.1) : ℤ) : ℝ) ^ 2 + (((q.2 - p.2) : ℤ) : ℝ) ^ 2)

/-- List of Euclidean hop lengths along a traceback path. -/
noncomputable def hopLengths : List (ℤ × ℤ) → List ℝ
  | p :: q :: rest => hopLength p q :: hopLengths (q :: rest)
  | _ => []

/-- Exceptions of TieLineCosts.least_cost_path: the ValueError for an end
point outside the clipped raster, and the dedicated transmission-feature
error raised (under the name TransFeatureNotFoundError) when the solver
cannot trace the destination back to the start. -/
inductive PathError where
  | valueError
  | transFeatureNotFound
deriving DecidableEq, Repr

/-- TieLineCosts.least_cost_path (trans_cap_costs.py lines 280-341).  The
bounds of the clipped raster come from mcp_cost.shape; the traceback of the
opaque MCP_Geometric solver (initialized on mcp_cost) is the explicit
parameter tb, returning none where skimage raises ValueError.  The length is
the hop-length sum times the 90 m cell size in km, and the money cost pairs
each cell's raw-cost value (read from the unbarriered cost array only) with
its half-hop length credit. -/
noncomputable def leastCostPath (cost mcpCost : Grid)
    (tb : ℤ × ℤ → Option (List (ℤ × ℤ))) (endIdx : ℤ × ℤ) :
    Except PathError (ℝ × ℝ) :=
  let shp := gridShape mcpCost
  if endIdx.1 < 0 ∨ endIdx.2 < 0 ∨
      ((shp.1 : ℤ) ≤ endIdx.1) ∨ ((shp.2 : ℤ) ≤ endIdx.2) then
    Except.error PathError.valueError
  else
    match tb endIdx with
    | none => Except.error PathError.transFeatureNotFound
    | some indices =>
      let lens := hopLengths indices
      let length := lens.sum * 90 / 1000
      let cellCosts :=
        indices.map (fun p => ((getCell cost p.1.toNat p.2.toNat : ℚ) : ℝ))
      let money := (List.zipWith (fun c l => c * l) cellCosts
        (cellCredits lens)).sum
      Except.ok (length, money)

theorem pairSums_sum {α : Type} [AddCommMonoid α] :
    ∀ xs : List α, (pairSums xs).sum = xs.sum
  | [] => rfl
  | [_] => rfl
  | x :: y :: xs => by
      simp [pairSums, pairSums_sum xs, add_assoc]

theorem pairSums_length {α : Type} [Add α] :
    ∀ xs : List α, (pairSums xs).length = (xs.length + 1) / 2
  | [] => by simp [pairSums]
  | [_] => by simp [pairSums]
  | _ :: _ :: xs => by
      simp [pairSums, pairSums_length xs]
      omega

theorem dup2_length {α : Type} :
    ∀ xs : List α, (dup2 xs).length = 2 * xs.length
  | [] => rfl
  | _ :: xs => by
      simp [dup2, dup2_length xs]
      omega

theorem dup2_halves_sum (xs : List ℝ) :
    ((dup2 xs).map (fun l => l / 2)).sum = xs.sum := by
  induction xs with
  | nil => simp [dup2]
  | cons x t ih =>
    simp [dup2, ih]
    ring

theorem cellCredits_sum (lens : List ℝ) :
    (cellCredits lens).sum = lens.sum := by
  simp [cellCredits, pairSums_sum, dup2_halves_sum]

theorem cellCredits_length {α : Type} [DivisionRing α] (lens : List α) :
    (cellCredits lens).length = lens.length + 1 := by
  simp [cellCredits, pairSums_length, dup2_length]
  omega

theorem hopLengths_length :
    ∀ path : List (ℤ × ℤ), (hopLengths path).length = path.length - 1
  | [] => rfl
  | [_] => rfl
  | _ :: q :: rest => by
      simp [hopLengths, hopLengths_length (q :: rest)]

theorem getD_map_mul (m : ℚ) :
    ∀ (l : List ℚ) (j : ℕ), (l.map (· * m)).getD j 0 = l.getD j 0 * m
  | [], j => by simp
  | _ :: _, 0 => rfl
  | _ :: xs, j + 1 => getD_map_mul m xs j

theorem getD_zipWith_mul :
    ∀ (a b : List ℚ) (j : ℕ),
      (List.zipWith (· * ·) a b).getD j 0 = a.getD j 0 * b.getD j 0
  | [], _, _ => by simp
  | _ :: _, [], _ => by simp
  | _ :: _, _ :: _, 0 => rfl
  | _ :: xs, _ :: ys, j + 1 => getD_zipWith_mul xs ys j

theorem getCell_smul2d (m : ℚ) :
    ∀ (g : Grid) (i j : ℕ), getCell (smul2d m g) i j = getCell g i j * m
  | [], _, _ => (zero_mul m).symm
  | r :: _, 0, j => getD_map_mul m r j
  | _ :: rs, i + 1, j => getCell_smul2d m rs i j

theorem getCell_mul2d :
    ∀ (a b : Grid) (i j : ℕ),
      getCell (mul2d a b) i j = getCell a i j * getCell b i j
  | [], b, i, j => (zero_mul (getCell b i j)).symm
  | a :: as, [], i, j => (mul_zero (getCell (a :: as) i j)).symm
  | ra :: _, rb :: _, 0, j => getD_zipWith_mul ra rb j
  | _ :: as, _ :: bs, i + 1, j => getCell_mul2d as bs i j

theorem foldl_min_le_init :
    ∀ (l : List ℚ) (a : ℚ), l.foldl min a ≤ a
  | [], a => le_refl a
  | y :: t, a => le_trans (foldl_min_le_init t (min a y)) (min_le_left a y)

theorem foldl_min_le_mem :
    ∀ (l : List ℚ) (a x : ℚ), x ∈ l → l.foldl min a ≤ x := by
  intro l
  induction l with
  | nil => intro a x h; cases h
  | cons y t ih =>
    intro a x h
    rcases List.mem_cons.mp h with rfl | h
    · exact le_trans (foldl_min_le_init t (min a x)) (min_le_right a x)
    · simpa using ih (min a y) x h

theorem foldl_min_le_of_mem (t : List ℚ) (a x : ℚ) (h : x ∈ a :: t) :
    t.foldl min a ≤ x := by
  rcases List.mem_cons.mp h with rfl | h
  · exact foldl_min_le_init t x
  · exact foldl_min_le_mem t a x h

/-- Claim C1 (code bug evidence): for a feature whose unclamped least-cost
path is 1 km long with cost 100 and min_line_length 5.7 km,
compute_tie_line_costs reports dist_km = 5.7 but raw_line_cost = 100 — the
unclamped cost.  The scaled cost 100 * (5.7 / 1) = 570 is computed into a
local variable at trans_cap_costs.py line 530 and never stored, so the table
does not satisfy cost_after = cost_before * (min_line_length / length). -/
theorem compute_tie_line_costs_discards_scaled_cost :
    computeTieLineCosts 230 5.7 (fun _ => (1, 100))
      [⟨Category.substation, 100, 200, 1⟩] = [(100, 5.7)] ∧
    ((1 : ℚ) < 5.7) ∧ ((100 : ℚ) ≠ 100 * (5.7 / 1)) := by
  refine ⟨?_, by norm_num, by norm_num⟩
  simp [computeTieLineCosts, computeTieLineCostsRow]
  norm_num

/-- Claim C2 (code bug evidence): dist_km = 1 km is below the short cutoff
(3 miles, about 4.83 km), so the claim assigns length_mult 1.5; the code
applies the medium mask (dist <= 10 miles) after the short mask
(trans_cap_costs.py lines 644-651) and therefore overwrites every short
line's 1.5 with 1.2.  tie_line_cost is raw_line_cost times that 1.2. -/
theorem length_mult_medium_overwrites_short :
    ((1 : ℚ) < 3 * 5280 / 3.28084 / 1000) ∧
    lengthMult 1 = 1.2 ∧ ((1.2 : ℚ) ≠ 1.5) ∧
    tieLineCost 100 1 = 100 * 1.2 := by
  refine ⟨by norm_num, ?_, by norm_num, ?_⟩
  · norm_num [lengthMult]
  · norm_num [tieLineCost, lengthMult]

/-- Claim C3: for every traceback path of one or more grid cells, the
per-cell half-hop length credits of the cost-attribution scheme (one credit
per path cell) sum exactly to the plain sum of the Euclidean hop lengths —
no length is double-counted or dropped. -/
theorem half_hop_credits_conserve_length (path : List (ℤ × ℤ))
    (h : path ≠ []) :
    (cellCredits (hopLengths path)).length = path.length ∧
    (cellCredits (hopLengths path)).sum = (hopLengths path).sum := by
  constructor
  · have hl := hopLengths_length path
    have hc := cellCredits_length (hopLengths path)
    have hp : 0 < path.length := List.length_pos.mpr h
    omega
  · exact cellCredits_sum (hopLengths path)

/-- Claim C3 witness: the scheme evaluated on the concrete two-cell diagonal
path from (0,0) to (1,1). -/
theorem half_hop_credits_conserve_length_witness :
    (([((0 : ℤ), (0 : ℤ)), (1, 1)] : List (ℤ × ℤ)) ≠ []) ∧
    ((cellCredits (hopLengths [((0 : ℤ), (0 : ℤ)), (1, 1)])).length = 2 ∧
     (cellCredits (hopLengths [((0 : ℤ), (0 : ℤ)), (1, 1)])).sum =
       (hopLengths [((0 : ℤ), (0 : ℤ)), (1, 1)]).sum) :=
  ⟨by decide, half_hop_credits_conserve_length [(0, 0), (1, 1)] (by decide)⟩

/-- Claim C4 (code bug evidence): trans_cap_costs.py line 21 imports
TransFeatureNotFoundError from reVX.utilities.exceptions, but that module
defines no class of that name, so importing the module raises ImportError
before any least_cost_path call can run — no dedicated catchable exception
type for unreachable destinations exists in the code as written. -/
theorem trans_cap_costs_import_fails :
    importTransCapCosts = Except.error "ImportError" ∧
    "TransFeatureNotFoundError" ∉ exceptionsModuleClasses := by
  constructor
  · rfl
  · decide

/-- Claim C5: _clip_costs returns (cost, mcp_cost) with mcp_cost elementwise
equal to cost * barrier * barrier_mult, and the dollar figure returned by
least_cost_path depends only on the raw cost array: two solver states that
share the raw cost array, the window shape and the traceback — however the
barrier-weighted mcp_cost values differ — return identical results. -/
theorem clip_costs_product_and_money_cost (cost barrier costG mcp1 mcp2 : Grid)
    (r0 r1 c0 c1 : ℕ) (mult : ℚ) (i j : ℕ)
    (tb : ℤ × ℤ → Option (List (ℤ × ℤ))) (endIdx : ℤ × ℤ)
    (hshape : gridShape mcp1 = gridShape mcp2) :
    getCell (clipCosts cost barrier r0 r1 c0 c1 mult).2 i j =
      getCell (clipCosts cost barrier r0 r1 c0 c1 mult).1 i j *
        getCell (slice2d barrier r0 r1 c0 c1) i j * mult ∧
    leastCostPath costG mcp1 tb endIdx = leastCostPath costG mcp2 tb endIdx := by
  constructor
  · simp [clipCosts, getCell_smul2d, getCell_mul2d]
  · simp only [leastCostPath, hshape]

/-- Claim C5 witness: the product identity and the mcp-independence of the
money cost evaluated on concrete 2-by-2 windows and two different
barrier-weighted grids of equal shape. -/
theorem clip_costs_product_and_money_cost_witness :
    gridShape [[(7 : ℚ)]] = gridShape [[(8 : ℚ)]] ∧
    getCell (clipCosts [[1, 2], [3, 4]] [[1, 1], [2, 1]] 0 2 0 2 100).2 0 1 =
      getCell (clipCosts [[1, 2], [3, 4]] [[1, 1], [2, 1]] 0 2 0 2 100).1 0 1 *
        getCell (slice2d [[1, 1], [2, 1]] 0 2 0 2) 0 1 * 100 :=
  ⟨by decide,
   (clip_costs_product_and_money_cost [[1, 2], [3, 4]] [[1, 1], [2, 1]]
     [[5]] [[7]] [[8]] 0 2 0 2 100 0 1 (fun _ => none) (0, 0) (by decide)).1⟩

/-- Claim C6 counterexample: a substation whose voltage (345 kV, both
min_volts and max_volts) exceeds the 230 kV tie voltage, in a non-exempt
region, receives the positive table cost 1000 $/MW and a nonzero transformer
cost — the claim that the cost is zero whenever the existing feature already
exceeds the tie voltage is false on the code. -/
theorem xformer_cost_nonzero_for_exceeding_feature :
    calcXformerCost [⟨Category.substation, 345, 345, 1⟩] 230
      (fun _ _ => 1000) 2 = Except.ok [1000] ∧
    xformerCost 1000 100 = 100000 ∧
    ((230 : ℚ) < 345) ∧ ((1 : ℤ) ≠ 2) ∧ ((100000 : ℚ) ≠ 0) := by
  refine ⟨?_, by norm_num [xformerCost], by norm_num, by decide, by norm_num⟩
  simp [calcXformerCost, xformerCostRow]
  norm_num

/-- Claim C6 as amended: when no substation fails the voltage check, the
transformer cost of a feature is the table value keyed by (feature voltage
class, tie voltage) times the capacity, and — for a positive table entry and
positive capacity — it is zero exactly when min_volts is at most the tie
voltage, or the feature is an under-voltage transmission line, or the
feature's region is the exempt TEPPC region. -/
theorem calc_xformer_cost_spec (feats : List Feature) (tieV : ℚ)
    (table : ℚ → ℚ → ℚ) (teppc : ℤ) (capacityMW : ℚ) (f : Feature)
    (hsub : ¬ ∃ g ∈ feats, g.category = Category.substation ∧ g.maxVolts < tieV)
    (hpos : 0 < table f.minVolts tieV) (hcap : 0 < capacityMW) :
    calcXformerCost feats tieV table teppc =
      Except.ok (feats.map (xformerCostRow tieV table teppc)) ∧
    (xformerCost (xformerCostRow tieV table teppc f) capacityMW = 0 ↔
      (f.minVolts ≤ tieV ∨
        (f.category = Category.transLine ∧ f.maxVolts < tieV) ∨
        f.region = teppc)) ∧
    ((¬ (f.minVolts ≤ tieV ∨
        (f.category = Category.transLine ∧ f.maxVolts < tieV) ∨
        f.region = teppc)) →
      xformerCost (xformerCostRow tieV table teppc f) capacityMW =
        table f.minVolts tieV * capacityMW) := by
  refine ⟨?_, ?_, ?_⟩
  · simp [calcXformerCost, hsub]
  · constructor
    · intro hz
      by_contra hno
      have hA : ¬ f.minVolts ≤ tieV := fun h => hno (Or.inl h)
      have hB : ¬ (f.category = Category.transLine ∧ f.maxVolts < tieV) :=
        fun h => hno (Or.inr (Or.inl h))
      have hC : ¬ f.region = teppc := fun h => hno (Or.inr (Or.inr h))
      rw [xformerCost, xformerCostRow, if_neg hB, if_neg hA, if_neg hC] at hz
      exact (mul_pos hpos hcap).ne' hz
    · intro hd
      rcases hd with h | h | h
      · by_cases hB : f.category = Category.transLine ∧ f.maxVolts < tieV
        · simp [xformerCost, xformerCostRow, hB]
        · simp [xformerCost, xformerCostRow, hB, h]
      · simp [xformerCost, xformerCostRow, h]
      · by_cases hB : f.category = Category.transLine ∧ f.maxVolts < tieV
        · simp [xformerCost, xformerCostRow, hB]
        · by_cases hA : f.minVolts ≤ tieV
          · simp [xformerCost, xformerCostRow, hB, hA]
          · simp [xformerCost, xformerCostRow, hB, hA, h]
  · intro hnone
    have hA : ¬ f.minVolts ≤ tieV := fun h => hnone (Or.inl h)
    have hB : ¬ (f.category = Category.transLine ∧ f.maxVolts < tieV) :=
      fun h => hnone (Or.inr (Or.inl h))
    have hC : ¬ f.region = teppc := fun h => hnone (Or.inr (Or.inr h))
    rw [xformerCost, xformerCostRow, if_neg hB, if_neg hA, if_neg hC]

/-- Claim C6 witness: the amended characterization applied to an empty
feature table (no substation check failure) and a 345 kV feature against a
230 kV tie line with a positive table and 100 MW capacity. -/
theorem calc_xformer_cost_spec_witness :
    (¬ ∃ g ∈ ([] : List Feature),
        g.category = Category.substation ∧ g.maxVolts < 230) ∧
    ((0 : ℚ) < 1000) ∧ ((0 : ℚ) < 100) ∧
    calcXformerCost [] 230 (fun _ _ => 1000) 2 = Except.ok [] :=
  ⟨by simp, by norm_num, by norm_num,
   (calc_xformer_cost_spec [] 230 (fun _ _ => 1000) 2 100
     ⟨Category.other, 345, 345, 1⟩ (by simp) (by norm_num) (by norm_num)).1⟩

/-- Claim C7 counterexample: radius 0 at start index (5,5) on a 10-by-10
grid yields the zero-extent window ((5,5),(5,5)); _get_clipping_slices
returns it normally, so a degenerate window raises no configuration error at
window-build time and the bounds do not always have positive extent. -/
theorem get_clipping_slices_zero_extent :
    getClippingSlices (10, 10) 5 5 0 = ((5, 5), (5, 5)) ∧
    (getClippingSlices (10, 10) 5 5 0).1.2 -
      (getClippingSlices (10, 10) 5 5 0).1.1 = 0 := by
  constructor
  · decide
  · decide

/-- Claim C7 as amended: _get_clipping_slices clamps the window bounds to
[0, dim] on each axis, and the extent is positive whenever the radius is
at least 1 and the start index lies strictly inside the grid; no error is
raised for degenerate configurations — the zero-extent window is simply
returned. -/
theorem get_clipping_slices_clamped (rows cols row col radius : ℤ)
    (hrad : 0 < radius) (hrow0 : 0 ≤ row) (hrow1 : row < rows)
    (hcol0 : 0 ≤ col) (hcol1 : col < cols) :
    0 ≤ (getClippingSlices (rows, cols) row col radius).1.1 ∧
    (getClippingSlices (rows, cols) row col radius).1.2 ≤ rows ∧
    (getClippingSlices (rows, cols) row col radius).1.1 <
      (getClippingSlices (rows, cols) row col radius).1.2 ∧
    0 ≤ (getClippingSlices (rows, cols) row col radius).2.1 ∧
    (getClippingSlices (rows, cols) row col radius).2.2 ≤ cols ∧
    (getClippingSlices (rows, cols) row col radius).2.1 <
      (getClippingSlices (rows, cols) row col radius).2.2 := by
  simp only [getClippingSlices]
  omega

/-- Claim C7 witness: the clamping bounds evaluated for radius 1 at start
index (5,4) on a 10-by-12 grid. -/
theorem get_clipping_slices_clamped_witness :
    ((0 : ℤ) < 1) ∧ ((0 : ℤ) ≤ 5) ∧ ((5 : ℤ) < 10) ∧
    ((0 : ℤ) ≤ 4) ∧ ((4 : ℤ) < 12) ∧
    (0 ≤ (getClippingSlices (10, 12) 5 4 1).1.1 ∧
     (getClippingSlices (10, 12) 5 4 1).1.2 ≤ 10 ∧
     (getClippingSlices (10, 12) 5 4 1).1.1 <
       (getClippingSlices (10, 12) 5 4 1).1.2 ∧
     0 ≤ (getClippingSlices (10, 12) 5 4 1).2.1 ∧
     (getClippingSlices (10, 12) 5 4 1).2.2 ≤ 12 ∧
     (getClippingSlices (10, 12) 5 4 1).2.1 <
       (getClippingSlices (10, 12) 5 4 1).2.2) :=
  ⟨by decide, by decide, by decide, by decide, by decide,
   get_clipping_slices_clamped 10 12 5 4 1 (by decide) (by decide)
     (by decide) (by decide) (by decide)⟩

/-- Claim C8 counterexample: a data source holding only the
transmission_barrier layer passes the construction-time _check_layers check,
yet the capacity-class cost layer tie_line_costs_100MW is absent from it —
that layer is first read inside the per-window _clip_costs call, so a
missing cost layer does surface inside a worker rather than up front. -/
theorem check_layers_misses_cost_layer :
    checkLayers ["transmission_barrier"] = Except.ok () ∧
    tieLineCostLayerName 100 = "tie_line_costs_100MW" ∧
    "tie_line_costs_100MW" ∉ ["transmission_barrier"] := by
  refine ⟨by rfl, ?_, by decide⟩
  rfl

/-- Claim C8 as amended: _check_layers, run once at construction before any
parallel work, verifies exactly the REQUIRED_LAYRES list — only
transmission_barrier — and raises an error naming the missing layer when it
is absent; the capacity-class cost layer is not part of the check. -/
theorem check_layers_spec (available : List String) :
    checkLayers available =
      (if "transmission_barrier" ∈ available then Except.ok ()
       else Except.error ["transmission_barrier"]) := by
  by_cases h : "transmission_barrier" ∈ available
  · simp [checkLayers, REQUIRED_LAYRES, h]
  · simp [checkLayers, REQUIRED_LAYRES, h]

/-- Claim C9: PathFinder.__init__ asserts cost_arr.min() > 0, so any cost
array containing a zero or negative cell fails the assertion and no
PathFinder is constructed. -/
theorem path_finder_init_rejects_nonpositive (costArr pathsArr : Grid)
    (r : List ℚ) (x : ℚ) (hr : r ∈ costArr) (hx : x ∈ r) (hx0 : x ≤ 0) :
    pathFinderInit costArr pathsArr = Except.error "AssertionError" := by
  have hmem : x ∈ flatCells costArr := by
    simp only [flatCells, List.mem_flatten]
    exact ⟨r, hr, hx⟩
  cases hflat : flatCells costArr with
  | nil => rw [hflat] at hmem; cases hmem
  | cons y ys =>
    rw [hflat] at hmem
    have hmin : ys.foldl min y ≤ x := foldl_min_le_of_mem ys y x hmem
    have hle : ¬ (ys.foldl min y > 0) := not_lt.mpr (le_trans hmin hx0)
    have harr : arrMin costArr = some (ys.foldl min y) := by
      simp [arrMin, hflat]
    simp [pathFinderInit, harr, hle]

/-- Claim C9 witness: construction rejected for the concrete cost array
[[1, 0], [2, 3]] containing the zero cell. -/
theorem path_finder_init_rejects_nonpositive_witness :
    (([(1 : ℚ), 0] ∈ ([[1, 0], [2, 3]] : Grid)) ∧ ((0 : ℚ) ∈ [(1 : ℚ), 0]) ∧
      ((0 : ℚ) ≤ 0)) ∧
    pathFinderInit [[1, 0], [2, 3]] [[1, 1], [1, 1]] =
      Except.error "AssertionError" :=
  ⟨⟨by decide, by decide, by decide⟩,
   path_finder_init_rejects_nonpositive [[1, 0], [2, 3]] [[1, 1], [1, 1]]
     [1, 0] 0 (by decide) (by decide) (by decide)⟩

/-- Claim C10: mc_dist_to_port writes the sentinel -1 on every onshore pixel
(input distance-to-coast value at most 0) and, on every offshore pixel, the
least-cost distance divided by 1000 plus port_dist; with the solver's
cumulative costs nonnegative, every (reachable) offshore value is at least
port_dist. -/
theorem mc_dist_to_port_spec (distToCoast : Grid) (portDist : ℚ)
    (mcDist : ℕ → ℕ → ℚ) (hmc : ∀ a b, 0 ≤ mcDist a b) (i j : ℕ) :
    (getCell distToCoast i j ≤ 0 →
      mcDistToPort distToCoast portDist mcDist i j = -1) ∧
    (0 < getCell distToCoast i j →
      mcDistToPort distToCoast portDist mcDist i j =
        mcDist i j / 1000 + portDist ∧
      portDist ≤ mcDistToPort distToCoast portDist mcDist i j) := by
  constructor
  · intro h
    simp [mcDistToPort, not_lt.mpr h]
  · intro h
    have e : mcDistToPort distToCoast portDist mcDist i j =
        mcDist i j / 1000 + portDist := by
      simp [mcDistToPort, h]
    refine ⟨e, ?_⟩
    rw [e]
    have hq : 0 ≤ mcDist i j / 1000 := by
      have := hmc i j
      positivity
    linarith

/-- Claim C10 witness: the sentinel and the offshore lower bound evaluated
on the concrete one-row raster [[1, -2]] with port_dist 2 and a constant
cumulative-cost field of 500. -/
theorem mc_dist_to_port_spec_witness :
    (∀ _a _b : ℕ, (0 : ℚ) ≤ 500) ∧
    ((getCell [[1, -2]] 0 1 ≤ 0 →
        mcDistToPort [[1, -2]] 2 (fun _ _ => 500) 0 1 = -1) ∧
     (0 < getCell [[1, -2]] 0 1 →
        mcDistToPort [[1, -2]] 2 (fun _ _ => 500) 0 1 = 500 / 1000 + 2 ∧
        (2 : ℚ) ≤ mcDistToPort [[1, -2]] 2 (fun _ _ => 500) 0 1)) :=
  ⟨fun _ _ => by norm_num,
   mc_dist_to_port_spec [[1, -2]] 2 (fun _ _ => 500)
     (fun _ _ => by norm_num) 0 1⟩

end ReVX
